import Mathlib

/-!
Verification of the rsdoctor build-plugin interception layer
(`packages/core/src/inner-plugins/utils/plugin.ts`) and of the features
normalization of `normalizeUserConfig`.

The TypeScript code is shallowly embedded: promise/async settlement is a
value of `Except JsError V`, the telemetry side effects (the samples taken
by `Date.now()` and the records accumulated by `sdk.reportPlugin`) are
threaded through an explicit state `St`, and a sink that may throw is a
function `OutcomeRecord → Option JsError` (`some e` meaning the submission
throws `e`).
-/

/-- A JavaScript `Error` value: its `message` and optional `stack`. -/
structure JsError where
  message : String
  stack : Option String
  deriving Repr, DecidableEq

/-- The structured error descriptor built by
`new DevToolError(title, message, { controller: { noStack, noColor }, stack })`
in `reportPluginData`. -/
structure DevToolError where
  title : String
  message : String
  noStack : Bool
  noColor : Bool
  stack : Option String
  deriving Repr, DecidableEq

/-- One telemetry row: the object
`{ tapName, costs, startAt, endAt, type, result, error }` that
`reportPluginData` submits under the key `hook` via `sdk.reportPlugin`.
The key is kept as the `hook` field. `result` is typed `Option Unit`
because the code always stores `null` there. -/
structure OutcomeRecord where
  hook : String
  tapName : String
  costs : Int
  startAt : Int
  endAt : Int
  type : String
  result : Option Unit
  error : List DevToolError
  deriving Repr, DecidableEq

/-- The effect state threaded through an instrumented invocation:
`clock` is the stream of values successive `Date.now()` calls return, and
`recs` is the ordered list of records the sink has accepted so far. -/
structure St where
  clock : List Int
  recs : List OutcomeRecord
  deriving Repr, DecidableEq

/-- `Date.now()`: pop the next sample off the clock stream (0 if exhausted). -/
def dateNow (s : St) : Int × St :=
  match s.clock with
  | [] => (0, s)
  | t :: ts => (t, { s with clock := ts })

/-- The `RsdoctorSDK` as the interception layer sees it: `sdk.reportPlugin`
either throws (`submitFails r = some e`) or accepts the record.  The
accumulation of accepted records lives in `St`. -/
structure RsdoctorSDK where
  submitFails : OutcomeRecord → Option JsError

/-- `sdk.reportPlugin(...)`: throws the sink error if the sink fails,
otherwise appends the record to the session's accumulated list. -/
def reportPlugin (sdk : RsdoctorSDK) (r : OutcomeRecord) (s : St) :
    Except JsError Unit × St :=
  match sdk.submitFails r with
  | some e => (.error e, s)
  | none => (.ok (), { s with recs := s.recs ++ [r] })

/-- `reportPluginData(sdk, hook, tapName, start, type, _res, err?)` from
`plugin.ts` lines 6–36: samples `end = Date.now()`, builds the record with
`result: null` (the raw `_res` is discarded — circular structures), wraps
`err` into a `DevToolError` titled `"<tapName> <hook> Error"` with
`noStack: false`, `noColor: true` and the original stack, and submits the
record keyed by `hook`. -/
def reportPluginData {V : Type} (sdk : RsdoctorSDK) (hook tapName : String)
    (start : Int) (type : String) (_res : Option V) (err : Option JsError)
    (s : St) : Except JsError Unit × St :=
  let (endT, s1) := dateNow s
  reportPlugin sdk
    { hook := hook
      tapName := tapName
      costs := endT - start
      startAt := start
      endAt := endT
      type := type
      result := none
      error :=
        match err with
        | some e =>
            [{ title := tapName ++ " " ++ hook ++ " Error"
               message := e.message
               noStack := false
               noColor := true
               stack := e.stack }]
        | none => [] } s1

/-- The `compiler` object reachable from a promise tap's first argument;
`isChild()` is its child-compilation predicate. -/
structure Compiler where
  isChild : Bool
  deriving Repr, DecidableEq

/-- One entry of the JavaScript `arguments` object, as far as the
interception layer inspects it: an optional `compiler` property. -/
structure ArgVal where
  compiler : Option Compiler
  deriving Repr, DecidableEq

/-- The optional chain `arguments?.[0]?.compiler?.isChild()` of
`plugin.ts` line 98: `none` is JavaScript `undefined` (no first argument,
or no `compiler` on it). -/
def childMarker : List ArgVal → Option Bool
  | [] => none
  | a :: _ =>
    match a.compiler with
    | none => none
    | some c => some c.isChild

/-- The semantic shape of a tap callback: it takes the `this` context and
the `arguments`, and produces a settlement while threading the effect
state.  Original host callbacks never touch the state (see `pureCb`);
instrumented proxies do. -/
def TapFn (T V : Type) : Type :=
  T → List ArgVal → St → Except JsError V × St

/-- Lift an effect-free host callback to a `TapFn`. -/
def pureCb {T V : Type} (f : T → List ArgVal → Except JsError V) : TapFn T V :=
  fun thisv args s => (f thisv args, s)

/-- A tapable `Tap`: name, calling-convention tag (`type`), the callback
(`fn`) and further registration metadata (represented by `stage`). -/
structure Tap (T V : Type) where
  name : String
  type : String
  stage : Int
  fn : TapFn T V

/-- The shared `catch` block of all three proxies
(`reportPluginData(sdk, name, tap.name, start, tap.type, null, error);
throw error;`): report the caught error, then re-throw it.  If the report
itself throws, that error propagates instead (there is no surrounding
handler). -/
def catchReport {V : Type} (sdk : RsdoctorSDK) (hook tapName type : String)
    (start : Int) (err : JsError) (s : St) : Except JsError V × St :=
  match reportPluginData sdk hook tapName start type (none : Option Unit) (some err) s with
  | (.ok _, s1) => (.error err, s1)
  | (.error e2, s1) => (.error e2, s1)

/-- The `sync` proxy of `plugin.ts` lines 53–71:
`try { const res = o.apply(this, arguments); reportPluginData(...res);
return res; } catch (error) { reportPluginData(..., error); throw error; }`.
Note that a throw from the success-path `reportPluginData` is caught by
the same `catch` block. -/
def syncProxy {T V : Type} (sdk : RsdoctorSDK) (hook tapName type : String)
    (o : TapFn T V) : TapFn T V :=
  fun thisv args s =>
    let (start, s1) := dateNow s
    match o thisv args s1 with
    | (.ok res, s2) =>
      match reportPluginData sdk hook tapName start type (some res) none s2 with
      | (.ok _, s3) => (.ok res, s3)
      | (.error e, s3) => catchReport sdk hook tapName type start e s3
    | (.error err, s2) => catchReport sdk hook tapName type start err s2

/-- The `async` proxy of `plugin.ts` lines 73–91: on settled values its
control flow is identical to the `sync` proxy (the `await` settles `o`'s
promise, the `try`/`catch` plays the same role). -/
def asyncProxy {T V : Type} (sdk : RsdoctorSDK) (hook tapName type : String)
    (o : TapFn T V) : TapFn T V :=
  fun thisv args s =>
    let (start, s1) := dateNow s
    match o thisv args s1 with
    | (.ok res, s2) =>
      match reportPluginData sdk hook tapName start type (some res) none s2 with
      | (.ok _, s3) => (.ok res, s3)
      | (.error e, s3) => catchReport sdk hook tapName type start e s3
    | (.error err, s2) => catchReport sdk hook tapName type start err s2

/-- The `promise` proxy of `plugin.ts` lines 93–119: computes
`isChild = arguments?.[0]?.compiler?.isChild()` before invoking, then
`o.apply(this, arguments).then(res => { if (isChild) return res;
report(res); return res; }).catch(error => { report(error); throw error; })`.
The child check guards only the fulfillment handler; a throw inside the
`then` handler (a sink failure) falls into the `catch` handler. -/
def promiseProxy {T V : Type} (sdk : RsdoctorSDK) (hook tapName type : String)
    (o : TapFn T V) : TapFn T V :=
  fun thisv args s =>
    let (start, s1) := dateNow s
    let isChild := childMarker args
    match o thisv args s1 with
    | (.ok res, s2) =>
      if isChild = some true then (.ok res, s2)
      else
        match reportPluginData sdk hook tapName start type (some res) none s2 with
        | (.ok _, s3) => (.ok res, s3)
        | (.error e, s3) => catchReport sdk hook tapName type start e s3
    | (.error err, s2) => catchReport sdk hook tapName type start err s2

/-- The `register(tap)` observer installed by `interceptPluginHook`
(`plugin.ts` lines 48–123): saves `o = tap.fn`, replaces `tap.fn` with the
proxy matching `tap.type`, leaves the tap untouched for any other tag, and
returns the tap. -/
def registerTap {T V : Type} (sdk : RsdoctorSDK) (name : String)
    (tap : Tap T V) : Tap T V :=
  let o := tap.fn
  if tap.type = "sync" then
    { tap with fn := syncProxy sdk name tap.name tap.type o }
  else if tap.type = "async" then
    { tap with fn := asyncProxy sdk name tap.name tap.type o }
  else if tap.type = "promise" then
    { tap with fn := promiseProxy sdk name tap.name tap.type o }
  else
    tap

/-- A hook registration as `interceptPluginHook` sees it: whether it
exposes a (truthy) `intercept` member, and the list of registration
observers installed so far. -/
structure IHook (T V : Type) where
  hasIntercept : Bool
  interceptors : List (Tap T V → Tap T V)

/-- `interceptPluginHook(sdk, name, hook)` from `plugin.ts` lines 38–125:
returns immediately when `!hook?.intercept` (hook nullish or without an
`intercept` member), otherwise `hook.intercept({ register })` appends the
registration observer.  The updated hook is returned explicitly here
because the embedding passes state instead of mutating. -/
def interceptPluginHook {T V : Type} (sdk : RsdoctorSDK) (name : String)
    (hook : Option (IHook T V)) : Option (IHook T V) :=
  match hook with
  | none => none
  | some h =>
    if h.hasIntercept = false then some h
    else some { h with interceptors := h.interceptors ++ [registerTap sdk name] }

/-- Modelled from the spec: the host hook's registration dispatch is not
part of this repository (it lives in tapable).  Per §4.1/§6 of the spec,
each installed registration observer "receives each Tap at the moment of
registration and returns a possibly-modified Tap"; with several observers
installed the result of one is handed to the next, in installation order. -/
def registerThroughInterceptors {T V : Type} (h : IHook T V) (tap : Tap T V) :
    Tap T V :=
  h.interceptors.foldl (fun t reg => reg t) tap

/-- A sink that never throws. -/
def okSDK : RsdoctorSDK := ⟨fun _ => none⟩

/-- A sink whose every submission throws. -/
def badSDK : RsdoctorSDK := ⟨fun _ => some ⟨"sink down", none⟩⟩

/-- `defaultBoolean(v, dft)` from the plugin options file:
`typeof v === 'boolean' ? v : dft`.  `none` stands for any value that is
not a boolean (in particular `undefined`). -/
def defaultBoolean : Option Bool → Bool → Bool
  | some b, _ => b
  | none, dft => dft

/-- The object form of the `features` option: each flag may be left
unspecified (`none`). -/
structure FeaturesObj where
  loader : Option Bool
  plugins : Option Bool
  resolver : Option Bool
  bundle : Option Bool
  treeShaking : Option Bool
  lite : Option Bool
  deriving Repr, DecidableEq

/-- The resolved feature flags of `RsdoctorPluginOptionsNormalized`. -/
structure NormalizedFeatures where
  loader : Bool
  plugins : Bool
  resolver : Bool
  bundle : Bool
  treeShaking : Bool
  lite : Bool
  deriving Repr, DecidableEq

/-- The `_features` computation of `normalizeUserConfig` (plugin options
file lines 67–87).  Array form: each flag is `features.includes(name)`;
object form: `defaultBoolean` with `true` for loader/plugins/bundle and
`false` for resolver/treeShaking.  In both forms `lite` is additionally
or-ed with `mode === SDK.IMode[SDK.IMode.lite]`, and the numeric-enum
round trip `SDK.IMode[SDK.IMode.lite]` is the string `"lite"`. -/
def normalizeFeatures (features : List String ⊕ FeaturesObj) (mode : String) :
    NormalizedFeatures :=
  match features with
  | .inl arr =>
      { loader := arr.contains "loader"
        plugins := arr.contains "plugins"
        resolver := arr.contains "resolver"
        bundle := arr.contains "bundle"
        treeShaking := arr.contains "treeShaking"
        lite := arr.contains "lite" || mode == "lite" }
  | .inr o =>
      { loader := defaultBoolean o.loader true
        plugins := defaultBoolean o.plugins true
        resolver := defaultBoolean o.resolver false
        bundle := defaultBoolean o.bundle true
        treeShaking := defaultBoolean o.treeShaking false
        lite := defaultBoolean o.lite false || mode == "lite" }

/-- Claim C4 (confirmed): for a synchronous tap whose callback throws `e`,
the instrumented proxy re-throws the identical error (same message and
stack, since it is the same `JsError` value) and submits exactly one
OutcomeRecord whose error descriptor has title `"<tapName> <hookName> Error"`,
the original message, and the original stack. -/
theorem C4_sync_throw_reports_and_rethrows {T V : Type} (sdk : RsdoctorSDK)
    (hok : ∀ r, sdk.submitFails r = none)
    (hookName tapName : String) (stage : Int)
    (f : T → List ArgVal → Except JsError V) (tv : T) (args : List ArgVal)
    (e : JsError) (t1 t2 : Int) (rest : List Int) (rs : List OutcomeRecord)
    (hf : f tv args = .error e) :
    (registerTap sdk hookName ⟨tapName, "sync", stage, pureCb f⟩).fn tv args
        ⟨t1 :: t2 :: rest, rs⟩ =
      (.error e,
        ⟨rest, rs ++
          [{ hook := hookName, tapName := tapName, costs := t2 - t1,
             startAt := t1, endAt := t2, type := "sync", result := none,
             error := [{ title := tapName ++ " " ++ hookName ++ " Error",
                         message := e.message, noStack := false,
                         noColor := true, stack := e.stack }] }]⟩) := by
  simp [registerTap, syncProxy, pureCb, dateNow, reportPluginData,
    reportPlugin, catchReport, hf, hok]

/-- Witness for C4 at a concrete throwing sync tap. -/
theorem C4_witness :
    (registerTap okSDK "compile"
        (⟨"my-plugin", "sync", 0,
          pureCb (fun (_ : Unit) _ => .error ⟨"boom", some "trace"⟩)⟩ :
          Tap Unit Nat)).fn () [] ⟨[10, 15, 99], []⟩ =
      (.error ⟨"boom", some "trace"⟩,
        ⟨[99], [{ hook := "compile", tapName := "my-plugin", costs := 5,
                  startAt := 10, endAt := 15, type := "sync", result := none,
                  error := [{ title := "my-plugin compile Error",
                              message := "boom", noStack := false,
                              noColor := true, stack := some "trace" }] }]⟩) :=
  C4_sync_throw_reports_and_rethrows okSDK (fun _ => rfl) "compile"
    "my-plugin" 0 (fun _ _ => .error ⟨"boom", some "trace"⟩) () []
    ⟨"boom", some "trace"⟩ 10 15 [99] [] rfl

/-- Claim C5 (confirmed): for a synchronous tap whose callback succeeds,
the instrumented proxy returns the identical value (the callback is
applied to the original `this` and arguments) and submits exactly one
OutcomeRecord whose `result` is `null` and whose error list is empty. -/
theorem C5_sync_success_reports_and_returns {T V : Type} (sdk : RsdoctorSDK)
    (hok : ∀ r, sdk.submitFails r = none)
    (hookName tapName : String) (stage : Int)
    (f : T → List ArgVal → Except JsError V) (tv : T) (args : List ArgVal)
    (v : V) (t1 t2 : Int) (rest : List Int) (rs : List OutcomeRecord)
    (hf : f tv args = .ok v) :
    (registerTap sdk hookName ⟨tapName, "sync", stage, pureCb f⟩).fn tv args
        ⟨t1 :: t2 :: rest, rs⟩ =
      (.ok v,
        ⟨rest, rs ++
          [{ hook := hookName, tapName := tapName, costs := t2 - t1,
             startAt := t1, endAt := t2, type := "sync", result := none,
             error := [] }]⟩) := by
  simp [registerTap, syncProxy, pureCb, dateNow, reportPluginData,
    reportPlugin, hf, hok]

/-- Witness for C5: the spec's concrete scenario (tap `"my-plugin"` on hook
`"compile"`, 5 ms, returns 42). -/
theorem C5_witness :
    (registerTap okSDK "compile"
        (⟨"my-plugin", "sync", 0, pureCb (fun (_ : Unit) _ => .ok (42 : Nat))⟩ :
          Tap Unit Nat)).fn () [] ⟨[100, 105], []⟩ =
      (.ok 42,
        ⟨[], [{ hook := "compile", tapName := "my-plugin", costs := 5,
                startAt := 100, endAt := 105, type := "sync", result := none,
                error := [] }]⟩) :=
  C5_sync_success_reports_and_returns okSDK (fun _ => rfl) "compile"
    "my-plugin" 0 (fun _ _ => .ok 42) () [] 42 100 105 [] [] rfl

/-- Claim C7 (confirmed): a tap whose convention tag is none of `"sync"`,
`"async"`, `"promise"` is returned by the registration observer completely
unmodified (same callback, same everything), with no error. -/
theorem C7_unrecognized_type_untouched {T V : Type} (sdk : RsdoctorSDK)
    (name : String) (tap : Tap T V)
    (h1 : tap.type ≠ "sync") (h2 : tap.type ≠ "async")
    (h3 : tap.type ≠ "promise") :
    registerTap sdk name tap = tap := by
  simp [registerTap, h1, h2, h3]

/-- Witness for C7 at a concrete tap with an unrecognized tag. -/
theorem C7_witness :
    registerTap okSDK "compile"
        (⟨"t", "syncBail", 3, pureCb (fun (_ : Unit) _ => .ok (1 : Nat))⟩ :
          Tap Unit Nat) =
      ⟨"t", "syncBail", 3, pureCb (fun _ _ => .ok 1)⟩ :=
  C7_unrecognized_type_untouched okSDK "compile" _
    (by decide) (by decide) (by decide)

/-- Claim C8 (confirmed): when the hook is nullish or exposes no
`intercept` member, `interceptPluginHook` is a no-op: it returns without
throwing and installs no observer (the hook state is unchanged). -/
theorem C8_no_intercept_noop {T V : Type} (sdk : RsdoctorSDK) (name : String)
    (hook : Option (IHook T V))
    (h : hook = none ∨ ∃ hk, hook = some hk ∧ hk.hasIntercept = false) :
    interceptPluginHook sdk name hook = hook := by
  rcases h with h | ⟨hk, rfl, hni⟩
  · subst h; rfl
  · simp [interceptPluginHook, hni]

/-- Witness for C8 on a hook without an interception point. -/
theorem C8_witness :
    interceptPluginHook okSDK "compile"
        (some (⟨false, []⟩ : IHook Unit Nat)) = some ⟨false, []⟩ :=
  C8_no_intercept_noop okSDK "compile" (some ⟨false, []⟩)
    (Or.inr ⟨⟨false, []⟩, rfl, rfl⟩)

/-- Claim C9 (confirmed): for a tap with a recognized convention tag, the
registration observer changes only the `fn` field: name, type tag and the
other registration metadata (`stage`) are unchanged. -/
theorem C9_only_fn_replaced {T V : Type} (sdk : RsdoctorSDK) (name : String)
    (tap : Tap T V)
    (h : tap.type = "sync" ∨ tap.type = "async" ∨ tap.type = "promise") :
    (registerTap sdk name tap).name = tap.name ∧
      (registerTap sdk name tap).type = tap.type ∧
      (registerTap sdk name tap).stage = tap.stage := by
  rcases h with h | h | h <;> simp [registerTap, h]

/-- Witness for C9 at a concrete promise tap. -/
theorem C9_witness :
    (registerTap okSDK "done"
        (⟨"summary", "promise", 7, pureCb (fun (_ : Unit) _ => .ok (0 : Nat))⟩ :
          Tap Unit Nat)).name = "summary" ∧
      (registerTap okSDK "done"
        (⟨"summary", "promise", 7, pureCb (fun (_ : Unit) _ => .ok (0 : Nat))⟩ :
          Tap Unit Nat)).type = "promise" ∧
      (registerTap okSDK "done"
        (⟨"summary", "promise", 7, pureCb (fun (_ : Unit) _ => .ok (0 : Nat))⟩ :
          Tap Unit Nat)).stage = 7 :=
  C9_only_fn_replaced okSDK "done" _ (Or.inr (Or.inr rfl))

/-- Claim C1 is refuted: a promise tap invoked in a child context
(`childMarker = some true`) whose promise rejects still submits one
OutcomeRecord — the `catch` handler of `plugin.ts` lines 107–118 reports
unconditionally — where the claim requires zero on rejection as well. -/
theorem C1_refuted :
    childMarker [⟨some ⟨true⟩⟩] = some true ∧
      ((registerTap okSDK "compile"
          (⟨"t", "promise", 0,
            pureCb (fun (_ : Unit) _ => .error ⟨"boom", some "st"⟩)⟩ :
            Tap Unit Nat)).fn () [⟨some ⟨true⟩⟩] ⟨[1, 2], []⟩).1 =
        .error ⟨"boom", some "st"⟩ ∧
      ((registerTap okSDK "compile"
          (⟨"t", "promise", 0,
            pureCb (fun (_ : Unit) _ => .error ⟨"boom", some "st"⟩)⟩ :
            Tap Unit Nat)).fn () [⟨some ⟨true⟩⟩] ⟨[1, 2], []⟩).2.recs.length
        = 1 :=
  ⟨rfl, rfl, rfl⟩

/-- Claim C1 as amended: for a promise tap invoked with a true
child-context predicate, zero OutcomeRecords are submitted on fulfillment
and the value passes through unchanged; on rejection, however, exactly one
OutcomeRecord is still submitted (the catch path does not consult the
child predicate) and the rejection reason passes through unchanged. -/
theorem C1_child_promise_suppression {T V : Type} (sdk : RsdoctorSDK)
    (hok : ∀ r, sdk.submitFails r = none)
    (hookName tapName : String) (stage : Int)
    (f : T → List ArgVal → Except JsError V) (tv : T) (args : List ArgVal)
    (hc : childMarker args = some true)
    (t1 t2 : Int) (rest : List Int) (rs : List OutcomeRecord) :
    (∀ v, f tv args = .ok v →
      (registerTap sdk hookName ⟨tapName, "promise", stage, pureCb f⟩).fn tv
          args ⟨t1 :: t2 :: rest, rs⟩ = (.ok v, ⟨t2 :: rest, rs⟩)) ∧
    (∀ e, f tv args = .error e →
      (registerTap sdk hookName ⟨tapName, "promise", stage, pureCb f⟩).fn tv
          args ⟨t1 :: t2 :: rest, rs⟩ =
        (.error e,
          ⟨rest, rs ++
            [{ hook := hookName, tapName := tapName, costs := t2 - t1,
               startAt := t1, endAt := t2, type := "promise", result := none,
               error := [{ title := tapName ++ " " ++ hookName ++ " Error",
                           message := e.message, noStack := false,
                           noColor := true, stack := e.stack }] }]⟩)) := by
  constructor
  · intro v hv
    simp [registerTap, promiseProxy, pureCb, dateNow, hv, hc]
  · intro e he
    simp [registerTap, promiseProxy, pureCb, dateNow, reportPluginData,
      reportPlugin, catchReport, he, hc, hok]

/-- Witness for the amended C1: fulfillment in a child context reports
nothing and passes `7` through. -/
theorem C1_witness :
    (registerTap okSDK "compile"
        (⟨"t", "promise", 0, pureCb (fun (_ : Unit) _ => .ok (7 : Nat))⟩ :
          Tap Unit Nat)).fn () [⟨some ⟨true⟩⟩] ⟨[1, 2], []⟩ =
      (.ok 7, ⟨[2], []⟩) :=
  (C1_child_promise_suppression okSDK (fun _ => rfl) "compile" "t" 0
      (fun _ _ => .ok 7) () [⟨some ⟨true⟩⟩] rfl 1 2 [] []).1 7 rfl

/-- Claim C6 (confirmed): for a promise tap whose child-context predicate
is false or absent, exactly one OutcomeRecord is submitted on settlement,
its error list is nonempty exactly when the promise rejected, and the
settlement passes through unchanged. -/
theorem C6_promise_no_child_reports {T V : Type} (sdk : RsdoctorSDK)
    (hok : ∀ r, sdk.submitFails r = none)
    (hookName tapName : String) (stage : Int)
    (f : T → List ArgVal → Except JsError V) (tv : T) (args : List ArgVal)
    (hc : childMarker args ≠ some true)
    (t1 t2 : Int) (rest : List Int) (rs : List OutcomeRecord) :
    (∀ v, f tv args = .ok v →
      (registerTap sdk hookName ⟨tapName, "promise", stage, pureCb f⟩).fn tv
          args ⟨t1 :: t2 :: rest, rs⟩ =
        (.ok v,
          ⟨rest, rs ++
            [{ hook := hookName, tapName := tapName, costs := t2 - t1,
               startAt := t1, endAt := t2, type := "promise", result := none,
               error := [] }]⟩)) ∧
    (∀ e, f tv args = .error e →
      (registerTap sdk hookName ⟨tapName, "promise", stage, pureCb f⟩).fn tv
          args ⟨t1 :: t2 :: rest, rs⟩ =
        (.error e,
          ⟨rest, rs ++
            [{ hook := hookName, tapName := tapName, costs := t2 - t1,
               startAt := t1, endAt := t2, type := "promise", result := none,
               error := [{ title := tapName ++ " " ++ hookName ++ " Error",
                           message := e.message, noStack := false,
                           noColor := true, stack := e.stack }] }]⟩)) := by
  constructor
  · intro v hv
    simp [registerTap, promiseProxy, pureCb, dateNow, reportPluginData,
      reportPlugin, hv, hc, hok]
  · intro e he
    simp [registerTap, promiseProxy, pureCb, dateNow, reportPluginData,
      reportPlugin, catchReport, he, hc, hok]

/-- Witness for C6: a promise tap with no first argument reports once and
passes its value through. -/
theorem C6_witness :
    (registerTap okSDK "done"
        (⟨"summary", "promise", 0, pureCb (fun (_ : Unit) _ => .ok (9 : Nat))⟩ :
          Tap Unit Nat)).fn () [] ⟨[3, 8], []⟩ =
      (.ok 9,
        ⟨[], [{ hook := "done", tapName := "summary", costs := 5,
                startAt := 3, endAt := 8, type := "promise", result := none,
                error := [] }]⟩) :=
  (C6_promise_no_child_reports okSDK (fun _ => rfl) "done" "summary" 0
      (fun _ _ => .ok 9) () [] (by decide) 3 8 [] []).1 9 rfl

/-- Claim C2 is refuted: with a sink whose submission throws, a sync tap
whose callback returns `42` has its outcome replaced by the sink error —
the success-path report throws into the `catch`, whose own report throws
again, and that error propagates past the interceptor boundary (no record
is stored either). -/
theorem C2_refuted :
    ((registerTap badSDK "compile"
        (⟨"t", "sync", 0, pureCb (fun (_ : Unit) _ => .ok (42 : Nat))⟩ :
          Tap Unit Nat)).fn () [] ⟨[10, 20, 30], []⟩).1 =
      .error ⟨"sink down", none⟩ ∧
      ((registerTap badSDK "compile"
          (⟨"t", "sync", 0, pureCb (fun (_ : Unit) _ => .ok (42 : Nat))⟩ :
            Tap Unit Nat)).fn () [] ⟨[10, 20, 30], []⟩).2.recs = [] :=
  ⟨rfl, rfl⟩

/-- Claim C2 as amended: telemetry-path errors are not isolated — for a
sync tap over a sink whose every submission throws `e`, the proxy's
outcome is `e` regardless of what the original callback did; the original
outcome is preserved exactly (for all three conventions) when the sink
does not throw. -/
theorem C2_telemetry_error_isolation {T V : Type} (sdkF sdkO : RsdoctorSDK)
    (e : JsError)
    (hfail : ∀ r, sdkF.submitFails r = some e)
    (hok : ∀ r, sdkO.submitFails r = none)
    (hookName tapName : String) (stage : Int)
    (f : T → List ArgVal → Except JsError V) (tv : T) (args : List ArgVal)
    (clock : List Int) (rs : List OutcomeRecord) :
    ((registerTap sdkF hookName ⟨tapName, "sync", stage, pureCb f⟩).fn tv
        args ⟨clock, rs⟩).1 = .error e ∧
    ((registerTap sdkO hookName ⟨tapName, "sync", stage, pureCb f⟩).fn tv
        args ⟨clock, rs⟩).1 = f tv args ∧
    ((registerTap sdkO hookName ⟨tapName, "async", stage, pureCb f⟩).fn tv
        args ⟨clock, rs⟩).1 = f tv args ∧
    ((registerTap sdkO hookName ⟨tapName, "promise", stage, pureCb f⟩).fn tv
        args ⟨clock, rs⟩).1 = f tv args := by
  refine ⟨?_, ?_, ?_, ?_⟩ <;>
  · rcases clock with _ | ⟨t1, _ | ⟨t2, _ | ⟨t3, c⟩⟩⟩ <;>
      cases hfv : f tv args <;>
      simp [registerTap, syncProxy, asyncProxy, promiseProxy, pureCb,
        dateNow, reportPluginData, reportPlugin, catchReport, hfv, hfail,
        hok, apply_ite]

/-- Witness for the amended C2 at a throwing sink and a succeeding
callback. -/
theorem C2_witness :
    ((registerTap badSDK "compile"
        (⟨"t", "sync", 0, pureCb (fun (_ : Unit) _ => .ok (7 : Nat))⟩ :
          Tap Unit Nat)).fn () [] ⟨[1, 2, 3], []⟩).1 =
      .error ⟨"sink down", none⟩ :=
  (C2_telemetry_error_isolation badSDK okSDK ⟨"sink down", none⟩
      (fun _ => rfl) (fun _ => rfl) "compile" "t" 0
      (fun _ _ => .ok 7) () [] [1, 2, 3] []).1

/-- The hook state after calling `interceptPluginHook` twice with the same
sink and hook name on a fresh interceptable hook. -/
def doubleHookC3 : IHook Unit Nat :=
  (interceptPluginHook okSDK "compile"
      (interceptPluginHook okSDK "compile" (some ⟨true, []⟩))).getD
    ⟨false, []⟩

/-- Claim C3 is refuted: after two `interceptPluginHook` calls with the
same session and hook, a sync tap registered afterwards is wrapped in
nested proxies and a single real invocation submits two OutcomeRecords,
where the claim requires exactly one. -/
theorem C3_refuted :
    ((registerThroughInterceptors doubleHookC3
        (⟨"t", "sync", 0, pureCb (fun (_ : Unit) _ => .ok (42 : Nat))⟩ :
          Tap Unit Nat)).fn () [] ⟨[1, 2, 3, 4], []⟩).2.recs.length = 2 ∧
      ((registerThroughInterceptors doubleHookC3
          (⟨"t", "sync", 0, pureCb (fun (_ : Unit) _ => .ok (42 : Nat))⟩ :
            Tap Unit Nat)).fn () [] ⟨[1, 2, 3, 4], []⟩).1 = .ok 42 :=
  ⟨rfl, rfl⟩

/-- Claim C3 as amended: calling `interceptPluginHook` twice with the same
session, hook name and hook is not idempotent — both observers remain
installed, a tap registered after both calls is double-wrapped, and each
real invocation submits exactly two OutcomeRecords (the settlement still
passes through unchanged). -/
theorem C3_double_intercept_double_reports {T V : Type} (sdk : RsdoctorSDK)
    (hok : ∀ r, sdk.submitFails r = none)
    (hookName tapName : String) (stage : Int)
    (f : T → List ArgVal → Except JsError V) (tv : T) (args : List ArgVal)
    (t1 t2 t3 t4 : Int) (rest : List Int) (rs : List OutcomeRecord)
    (h2 : IHook T V)
    (hh : interceptPluginHook sdk hookName
        (interceptPluginHook sdk hookName (some ⟨true, []⟩)) = some h2) :
    ((registerThroughInterceptors h2 ⟨tapName, "sync", stage, pureCb f⟩).fn
        tv args ⟨t1 :: t2 :: t3 :: t4 :: rest, rs⟩).1 = f tv args ∧
    ((registerThroughInterceptors h2 ⟨tapName, "sync", stage, pureCb f⟩).fn
        tv args ⟨t1 :: t2 :: t3 :: t4 :: rest, rs⟩).2.recs.length =
      rs.length + 2 := by
  simp only [interceptPluginHook, Bool.true_eq_false, if_false,
    List.nil_append, Option.some.injEq] at hh
  subst hh
  constructor <;>
  · cases hfv : f tv args <;>
      simp [registerThroughInterceptors, registerTap, syncProxy, pureCb,
        dateNow, reportPluginData, reportPlugin, catchReport, hfv, hok]

/-- Witness for the amended C3 at a concrete double interception. -/
theorem C3_witness :
    ((registerThroughInterceptors doubleHookC3
        (⟨"t", "sync", 0, pureCb (fun (_ : Unit) _ => .ok (5 : Nat))⟩ :
          Tap Unit Nat)).fn () [] ⟨[1, 2, 3, 4], []⟩).1 = .ok 5 ∧
      ((registerThroughInterceptors doubleHookC3
          (⟨"t", "sync", 0, pureCb (fun (_ : Unit) _ => .ok (5 : Nat))⟩ :
            Tap Unit Nat)).fn () [] ⟨[1, 2, 3, 4], []⟩).2.recs.length =
        0 + 2 :=
  C3_double_intercept_double_reports okSDK (fun _ => rfl) "compile" "t" 0
    (fun _ _ => .ok 5) () [] 1 2 3 4 [] [] doubleHookC3 rfl

/-- Claim C10 (confirmed): in the array form of `features`, each
instrumentation flag is enabled iff its name appears in the array; in the
object form, loader/plugins/bundle default to `true` and
resolver/treeShaking to `false` when unspecified; in both forms `lite` is
forced to `true` whenever `mode` is `"lite"`. -/
theorem C10_features_normalization (arr : List String) (o : FeaturesObj)
    (mode : String) :
    ((normalizeFeatures (.inl arr) mode).loader = arr.contains "loader" ∧
      (normalizeFeatures (.inl arr) mode).plugins = arr.contains "plugins" ∧
      (normalizeFeatures (.inl arr) mode).resolver = arr.contains "resolver" ∧
      (normalizeFeatures (.inl arr) mode).bundle = arr.contains "bundle" ∧
      (normalizeFeatures (.inl arr) mode).treeShaking
        = arr.contains "treeShaking") ∧
    ((o.loader = none → (normalizeFeatures (.inr o) mode).loader = true) ∧
      (o.plugins = none → (normalizeFeatures (.inr o) mode).plugins = true) ∧
      (o.bundle = none → (normalizeFeatures (.inr o) mode).bundle = true) ∧
      (o.resolver = none → (normalizeFeatures (.inr o) mode).resolver = false) ∧
      (o.treeShaking = none →
        (normalizeFeatures (.inr o) mode).treeShaking = false)) ∧
    (mode = "lite" →
      (normalizeFeatures (.inl arr) mode).lite = true ∧
        (normalizeFeatures (.inr o) mode).lite = true) := by
  refine ⟨⟨rfl, rfl, rfl, rfl, rfl⟩, ⟨?_, ?_, ?_, ?_, ?_⟩, ?_⟩ <;>
    intro h <;> simp [normalizeFeatures, defaultBoolean, h]

/-- Witness for C10: array form `["loader"]` with `mode = "lite"` enables
`loader` and forces `lite`; an empty-object form under `mode = "normal"`
keeps the documented defaults. -/
theorem C10_witness :
    (normalizeFeatures (.inl ["loader"]) "lite").loader
      = ["loader"].contains "loader" ∧
      (normalizeFeatures (.inl ["loader"]) "lite").lite = true ∧
      (normalizeFeatures
          (.inr ⟨none, none, none, none, none, none⟩) "normal").loader
        = true ∧
      (normalizeFeatures
          (.inr ⟨none, none, none, none, none, none⟩) "normal").resolver
        = false :=
  ⟨(C10_features_normalization ["loader"] ⟨none, none, none, none, none, none⟩
      "lite").1.1,
    ((C10_features_normalization ["loader"]
        ⟨none, none, none, none, none, none⟩ "lite").2.2 rfl).1,
    (C10_features_normalization ["loader"] ⟨none, none, none, none, none, none⟩
        "normal").2.1.1 rfl,
    (C10_features_normalization ["loader"] ⟨none, none, none, none, none, none⟩
        "normal").2.1.2.2.2.1 rfl⟩
